import Mathlib

/-!
Shallow embedding of the imobilothon backend core (hazard store, alert
lifecycle, device registry, analytics facade, MQTT notifier).

Conventions of the embedding:
* SQL rows become Lean structures; the shared database session becomes an
  explicit `DB` value threaded through each operation.
* Python floats (latitude, longitude, severity, confidence, distances)
  become `ℚ`; SQL timestamps (`DateTime`, server default `NOW()`) become
  `Int` (seconds); the ambient `NOW()` / `datetime.now(timezone.utc)` is an
  explicit `now : Int` argument.
* `select(...).where(col == v)` with `scalar_one_or_none()` on a unique
  column becomes `List.find?`; mutating the ORM object returned by such a
  query becomes an update of the first matching row.
* Fallible operations (`-> Optional[...]` in the source) return `Option`;
  a caught exception boundary becomes `Except`.
-/

/-- `app/db/models.py` `Device` row: internal serial key `id`, external
string key `device_id`, timestamps with server default `NOW()`. -/
structure Device where
  id : Nat
  device_id : String
  device_type : String
  model : Option String
  firmware_version : Option String
  registered_at : Int
  last_seen : Int
  last_active : Int
  deriving Repr, DecidableEq

/-- A PostGIS `POINT` (SRID 4326): `x` is longitude, `y` is latitude, as in
the WKT literal `POINT(lon lat)` built by `create_hazard`. -/
structure GeoPoint where
  x : ℚ
  y : ℚ
  deriving Repr, DecidableEq

/-- `app/db/models.py` `Hazard` row. -/
structure Hazard where
  id : Nat
  hazard_type : String
  severity : ℚ
  confidence : ℚ
  geom : GeoPoint
  ts : Int
  device_id : Nat
  deriving Repr, DecidableEq

/-- `app/db/models.py` `Alert` row. -/
structure Alert where
  id : Nat
  hazard_id : Option Nat
  sender_device_id : Nat
  receiver_device_id : Option Nat
  alert_type : String
  status : String
  created_at : Int
  acknowledged_at : Option Int
  deriving Repr, DecidableEq

/-- `app/db/models.py` `DeviceConfig` row. -/
structure DeviceConfig where
  id : Nat
  device_id : Nat
  detection_interval : Int
  alert_radius : Int
  min_confidence_threshold : ℚ
  last_updated : Int
  deriving Repr, DecidableEq

/-- The persistent store: the four tables plus the serial-key counters. -/
structure DB where
  devices : List Device
  hazards : List Hazard
  alerts : List Alert
  configs : List DeviceConfig
  nextDeviceId : Nat
  nextHazardId : Nat
  nextAlertId : Nat
  nextConfigId : Nat
  deriving Repr, DecidableEq

def emptyDB : DB :=
  { devices := [], hazards := [], alerts := [], configs := []
    nextDeviceId := 1, nextHazardId := 1, nextAlertId := 1, nextConfigId := 1 }

/-- `app/schemas/hazard.py` `HazardCreate`: plain typed fields, no
validators and no range constraints. -/
structure HazardCreate where
  lat : ℚ
  lon : ℚ
  hazard_type : String
  severity : ℚ
  confidence : ℚ
  device_id : String
  deriving Repr, DecidableEq

/-- `app/schemas/alert.py` `AlertCreate`. -/
structure AlertCreate where
  hazard_id : Option Nat
  sender_device_id : String
  receiver_device_id : Option String
  alert_type : String
  deriving Repr, DecidableEq

/-- `app/schemas/hazard.py` `HazardOut`: the response shape built by
`get_hazard_with_location`. -/
structure HazardOut where
  id : Nat
  hazard_type : String
  severity : ℚ
  confidence : ℚ
  ts : Int
  lat : ℚ
  lon : ℚ
  deriving Repr, DecidableEq

/-- `select(Device).where(Device.device_id == device_id)` +
`scalar_one_or_none()` over the unique `device_id` column. -/
def findDevice (db : DB) (device_id : String) : Option Device :=
  db.devices.find? (fun d => d.device_id == device_id)

/-- The get-or-auto-register step shared by `create_hazard` and
`create_alert`: look the device up; if absent, insert a row with
`device_type = "unknown"` (timestamps take the server default `NOW()`). -/
def getOrCreateDevice (db : DB) (device_id : String) (now : Int) : DB × Device :=
  match findDevice db device_id with
  | some d => (db, d)
  | none =>
      let d : Device :=
        { id := db.nextDeviceId, device_id := device_id, device_type := "unknown"
          model := none, firmware_version := none
          registered_at := now, last_seen := now, last_active := now }
      ({ db with devices := db.devices ++ [d], nextDeviceId := db.nextDeviceId + 1 }, d)

/-- `app/crud/alerts.py` `create_alert`: auto-register sender, then
receiver when provided, then insert the alert with `status = "sent"` and
`acknowledged_at` null. The receiver guard is Python truthiness
(`if alert.receiver_device_id:`), so both `None` and the empty string
mean "no receiver". -/
def create_alert (db : DB) (alert : AlertCreate) (now : Int) : DB × Alert :=
  let sres := getOrCreateDevice db alert.sender_device_id now
  let rres : DB × Option Device :=
    match alert.receiver_device_id with
    | none => (sres.1, none)
    | some rid =>
        if rid = "" then (sres.1, none)
        else
          let r := getOrCreateDevice sres.1 rid now
          (r.1, some r.2)
  let a : Alert :=
    { id := rres.1.nextAlertId, hazard_id := alert.hazard_id
      sender_device_id := sres.2.id
      receiver_device_id := rres.2.map (fun d => d.id)
      alert_type := alert.alert_type, status := "sent"
      created_at := now, acknowledged_at := none }
  ({ rres.1 with alerts := rres.1.alerts ++ [a], nextAlertId := rres.1.nextAlertId + 1 }, a)

/-- `app/crud/alerts.py` `get_alert`. -/
def get_alert (db : DB) (alert_id : Nat) : Option Alert :=
  db.alerts.find? (fun a => a.id == alert_id)

/-- Mutating the ORM `Alert` object returned by `get_alert`: update the
first row with the given id. -/
def updateFirstAlert (alert_id : Nat) (f : Alert → Alert) : List Alert → List Alert
  | [] => []
  | a :: as =>
      if a.id == alert_id then f a :: as else a :: updateFirstAlert alert_id f as

/-- `app/crud/alerts.py` `acknowledge_alert`: resolve the `device_id`
string (None when unknown), fetch the alert (None when absent), then
unconditionally set `status = "acknowledged"` and `acknowledged_at = now`.
There is no sender/receiver check in the source. -/
def acknowledge_alert (db : DB) (alert_id : Nat) (device_id : String) (now : Int) :
    Option (DB × Alert) :=
  match findDevice db device_id with
  | none => none
  | some _ =>
      match get_alert db alert_id with
      | none => none
      | some alert =>
          let upd : Alert → Alert := fun a =>
            { a with status := "acknowledged", acknowledged_at := some now }
          some ({ db with alerts := updateFirstAlert alert_id upd db.alerts }, upd alert)

/-- `app/crud/hazards.py` `create_hazard`: auto-register the device,
persist the point `POINT(lon lat)` (so `geom.x = lon`, `geom.y = lat`),
`ts` takes the server default `NOW()`. No field is range-checked anywhere
on this path. -/
def create_hazard (db : DB) (hazard : HazardCreate) (now : Int) : DB × Hazard :=
  let dres := getOrCreateDevice db hazard.device_id now
  let point : GeoPoint := { x := hazard.lon, y := hazard.lat }
  let h : Hazard :=
    { id := dres.1.nextHazardId, hazard_type := hazard.hazard_type
      severity := hazard.severity, confidence := hazard.confidence
      geom := point, ts := now, device_id := dres.2.id }
  ({ dres.1 with hazards := dres.1.hazards ++ [h], nextHazardId := dres.1.nextHazardId + 1 }, h)

/-- `app/crud/hazards.py` `get_hazard`. -/
def get_hazard (db : DB) (hazard_id : Nat) : Option Hazard :=
  db.hazards.find? (fun h => h.id == hazard_id)

/-- One step of the `ORDER BY Hazard.ts DESC` sort. -/
def insertTsDesc (h : Hazard) : List Hazard → List Hazard
  | [] => [h]
  | a :: as => if a.ts ≤ h.ts then h :: a :: as else a :: insertTsDesc h as

/-- `ORDER BY Hazard.ts DESC` as an insertion sort. -/
def sortTsDesc : List Hazard → List Hazard
  | [] => []
  | a :: as => insertTsDesc a (sortTsDesc as)

/-- `app/crud/hazards.py` `get_hazards_nearby`: keep the hazards whose
`ST_Distance` (both operands cast to `Geography`, hence geodesic meters on
the spheroid — `dist` is that distance function, taken as a parameter of
the embedding) from `ST_MakePoint(lon, lat)` is at most `radius_m`,
ordered by `ts` descending. -/
def get_hazards_nearby (dist : GeoPoint → GeoPoint → ℚ) (db : DB)
    (lat lon radius_m : ℚ) : List Hazard :=
  let search_point : GeoPoint := { x := lon, y := lat }
  sortTsDesc (db.hazards.filter (fun h => decide (dist h.geom search_point ≤ radius_m)))

/-- `app/crud/hazards.py` `get_hazard_with_location`: fetch the row, then
re-select it projecting `ST_X(geom)` as `lon` and `ST_Y(geom)` as `lat`. -/
def get_hazard_with_location (db : DB) (hazard_id : Nat) : Option HazardOut :=
  match get_hazard db hazard_id with
  | none => none
  | some _ =>
      match db.hazards.find? (fun h => h.id == hazard_id) with
      | none => none
      | some h =>
          some { id := h.id, hazard_type := h.hazard_type, severity := h.severity
                 confidence := h.confidence, ts := h.ts
                 lat := h.geom.y, lon := h.geom.x }

/-- A value in the JSON payload built by `publish_hazard_alert`; every
variant is an atom, so a payload (a list of key/value pairs) is flat by
construction, matching the flat dict passed to `json.dumps`. -/
inductive PayloadValue where
  | nat (n : Nat)
  | rat (q : ℚ)
  | str (s : String)
  deriving Repr, DecidableEq

/-- The message handed to `mqtt_client.publish(topic, payload_json, qos)`. -/
structure MqttMessage where
  topic : String
  payload : List (String × PayloadValue)
  qos : Nat
  deriving Repr, DecidableEq

/-- The global paho client handle (when present): its connection state. -/
structure MqttClient where
  connected : Bool
  deriving Repr, DecidableEq

/-- Outcome of the underlying `client.publish` transport call:
`Except.error` models a raised exception, `Except.ok rc` the paho result
code (`0` is `MQTT_ERR_SUCCESS`). -/
abbrev TransportOutcome := Except String Nat

/-- `app/core/mqtt_client.py` `publish_hazard_alert`: returns `false` when
the global client is absent or not connected; otherwise builds the topic
`hazards/alerts/<hazard_type>` and the flat payload, attempts the publish,
returns `true` on `MQTT_ERR_SUCCESS`, and `false` on any other result code
or on a caught exception. The second component is the message the attempt
hands to the transport (`none` when no attempt is made). -/
def publish_hazard_alert (client : Option MqttClient) (transport : TransportOutcome)
    (hazard_id : Nat) (hazard_type : String) (latitude longitude : ℚ)
    (timestamp : String) (qos : Nat) : Bool × Option MqttMessage :=
  match client with
  | none => (false, none)
  | some c =>
      if !c.connected then (false, none)
      else
        let topic := "hazards/alerts/" ++ hazard_type
        let payload : List (String × PayloadValue) :=
          [("hazard_id", PayloadValue.nat hazard_id),
           ("hazard_type", PayloadValue.str hazard_type),
           ("latitude", PayloadValue.rat latitude),
           ("longitude", PayloadValue.rat longitude),
           ("timestamp", PayloadValue.str timestamp)]
        let msg : MqttMessage := { topic := topic, payload := payload, qos := qos }
        match transport with
        | Except.error _ => (false, some msg)
        | Except.ok rc => (rc == 0, some msg)

/-- Civil date from a day count relative to 1970-01-01 (the standard
era/year-of-era decomposition used by calendar libraries). -/
def civilFromDays (z0 : Int) : Int × Int × Int :=
  let z := z0 + 719468
  let era := Int.fdiv z 146097
  let doe := z - era * 146097
  let yoe := Int.fdiv (doe - Int.fdiv doe 1460 + Int.fdiv doe 36524 - Int.fdiv doe 146096) 365
  let y := yoe + era * 400
  let doy := doe - (365 * yoe + Int.fdiv yoe 4 - Int.fdiv yoe 100)
  let mp := Int.fdiv (5 * doy + 2) 153
  let d := doy - Int.fdiv (153 * mp + 2) 5 + 1
  let m := mp + (if mp < 10 then 3 else -9)
  (if m ≤ 2 then y + 1 else y, m, d)

def pad2 (n : Int) : String :=
  if n < 10 then "0" ++ toString n else toString n

/-- `datetime.isoformat()` on a (UTC, second-resolution) timestamp:
the ISO-8601 combined date-time rendering used for the MQTT payload. -/
def isoformat (ts : Int) : String :=
  let days := Int.fdiv ts 86400
  let secs := ts - days * 86400
  let ymd := civilFromDays days
  toString ymd.1 ++ "-" ++ pad2 ymd.2.1 ++ "-" ++ pad2 ymd.2.2 ++ "T" ++
    pad2 (Int.fdiv secs 3600) ++ ":" ++ pad2 (Int.fdiv (secs % 3600) 60) ++ ":" ++
    pad2 (secs % 60)

/-- `app/api/routes/hazards.py` `create_hazard` route: persist the hazard,
re-read it with lat/lon, publish the MQTT alert inside a try/except that
swallows any notifier outcome, and return the `HazardOut`. The first
component is the HTTP result, the rest records the notifier attempt
(publish return value and the attempted message). -/
def createHazardRoute (db : DB) (hazard : HazardCreate) (now : Int)
    (client : Option MqttClient) (transport : TransportOutcome) :
    Except String (HazardOut × DB) × Bool × Option MqttMessage :=
  let cres := create_hazard db hazard now
  match get_hazard_with_location cres.1 cres.2.id with
  | some out =>
      let pub := publish_hazard_alert client transport out.id out.hazard_type
        out.lat out.lon (isoformat out.ts) 1
      (Except.ok (out, cres.1), pub.1, pub.2)
  | none => (Except.error "Failed to extract hazard location", false, none)

/-- `cast(Hazard.ts, Date)`: the calendar day of a timestamp. -/
def dateOf (ts : Int) : Int := Int.fdiv ts 86400

/-- `GROUP BY hazard_type` with `count(id)` over the whole table
(`app/crud/analytics.py`, first query of `get_hazard_trends`): one entry
per distinct type, counting all hazards of that type. -/
def hazardsByType (db : DB) : List (String × Nat) :=
  (db.hazards.map (fun h => h.hazard_type)).dedup.map
    (fun t => (t, (db.hazards.filter (fun h => h.hazard_type == t)).length))

/-- Insert a day key into an ascending duplicate-free list, keeping it
ascending and duplicate-free. -/
def insertAscDedup (d : Int) : List Int → List Int
  | [] => [d]
  | a :: as =>
      if d < a then d :: a :: as
      else if d = a then a :: as
      else a :: insertAscDedup d as

/-- The distinct day keys of a list, in ascending order (`GROUP BY` +
`ORDER BY` on `cast(ts, Date)`). -/
def sortedDays (l : List Int) : List Int := l.foldr insertAscDedup []

/-- `app/crud/analytics.py` `get_hazard_trends`: `hazards_by_type` over the
whole table; `hazards_by_day` over the rows with
`ts >= now - days*86400`, grouped by calendar day, one `(day, count)` entry
per occupied day, ascending by day. -/
def get_hazard_trends (db : DB) (now : Int) (days : Nat) :
    List (String × Nat) × List (Int × Nat) :=
  let start := now - (days : Int) * 86400
  let window := db.hazards.filter (fun h => decide (start ≤ h.ts))
  let dayKeys := sortedDays (window.map (fun h => dateOf h.ts))
  let byDay := dayKeys.map
    (fun d => (d, (window.filter (fun h => dateOf h.ts == d)).length))
  (hazardsByType db, byDay)

/-- Mutating the ORM `Device` object returned by `findDevice`: update the
first row with the given external id. -/
def updateFirstDevice (device_id : String) (f : Device → Device) : List Device → List Device
  | [] => []
  | d :: ds =>
      if d.device_id == device_id then f d :: ds else d :: updateFirstDevice device_id f ds

/-- `app/crud/system.py` `register_or_update_device`: when the device
exists, overwrite `device_type`, `model`, `firmware_version` with the
arguments (also when they are `none`) and refresh `last_active`; when it
does not, insert it together with a default `DeviceConfig`. -/
def register_or_update_device (db : DB) (device_id device_type : String)
    (model firmware_version : Option String) (now : Int) : DB × Device :=
  match findDevice db device_id with
  | some d =>
      let upd : Device → Device := fun x =>
        { x with device_type := device_type, model := model
                 firmware_version := firmware_version, last_active := now }
      ({ db with devices := updateFirstDevice device_id upd db.devices }, upd d)
  | none =>
      let d : Device :=
        { id := db.nextDeviceId, device_id := device_id, device_type := device_type
          model := model, firmware_version := firmware_version
          registered_at := now, last_seen := now, last_active := now }
      let cfg : DeviceConfig :=
        { id := db.nextConfigId, device_id := d.id
          detection_interval := 5, alert_radius := 500
          min_confidence_threshold := 7/10, last_updated := now }
      ({ db with
           devices := db.devices ++ [d], configs := db.configs ++ [cfg],
           nextDeviceId := db.nextDeviceId + 1, nextConfigId := db.nextConfigId + 1 }, d)

/-! ## Concrete states used by the counterexamples and witnesses -/

/-- Two registered devices and one alert sent by device `dev1` (internal
key 1) with no receiver; device `dev3` (internal key 3) is unrelated to
the alert. -/
def exDB1 : DB :=
  { devices :=
      [{ id := 1, device_id := "dev1", device_type := "car", model := none
         firmware_version := none, registered_at := 0, last_seen := 0, last_active := 0 },
       { id := 3, device_id := "dev3", device_type := "car", model := none
         firmware_version := none, registered_at := 0, last_seen := 0, last_active := 0 }]
    hazards := [], configs := []
    alerts :=
      [{ id := 1, hazard_id := none, sender_device_id := 1, receiver_device_id := none
         alert_type := "local", status := "sent", created_at := 0, acknowledged_at := none }]
    nextDeviceId := 4, nextHazardId := 1, nextAlertId := 2, nextConfigId := 1 }

/-- A hazard-creation request with every range-constrained field outside
the range the spec asserts. -/
def exReqBad : HazardCreate :=
  { lat := 200, lon := 300, hazard_type := "pothole", severity := 5
    confidence := -2, device_id := "d" }

/-- An alert-creation request of type `local` that nevertheless supplies a
receiver device. -/
def exReqLocalRecv : AlertCreate :=
  { hazard_id := none, sender_device_id := "s1", receiver_device_id := some "r1"
    alert_type := "local" }

/-! ## C1 — acknowledgment authorization -/

/-- C1 counterexample: in `exDB1` the device `dev3` exists (internal key
3) and alert 1 exists with sender key 1 and no receiver, so `dev3` is
neither sender nor receiver; yet `acknowledge_alert` succeeds instead of
returning not-found, refuting the claim that acknowledgment by a device
that is neither sender nor receiver yields not-found. -/
theorem C1_acknowledge_unrelated_device_succeeds :
    (findDevice exDB1 "dev3").map (fun d => d.id) = some 3 ∧
    (get_alert exDB1 1).map (fun a => a.sender_device_id) = some 1 ∧
    (get_alert exDB1 1).map (fun a => a.receiver_device_id) = some none ∧
    (acknowledge_alert exDB1 1 "dev3" 100).isSome = true := by
  decide

/-- C1 amended: `acknowledge_alert` returns not-found (never raises — it
is a total function into `Option`) exactly when the alert does not exist
or no device with the given `device_id` exists; whenever both exist it
succeeds, with no check that the device is the alert's sender or
receiver. -/
theorem C1_acknowledge_none_iff (db : DB) (alert_id : Nat) (device_id : String) (now : Int) :
    acknowledge_alert db alert_id device_id now = none ↔
      (findDevice db device_id = none ∨ get_alert db alert_id = none) := by
  rcases hd : findDevice db device_id with _ | d <;>
    rcases ha : get_alert db alert_id with _ | a <;>
      simp [acknowledge_alert, hd, ha]

/-! ## C2 — hazard-creation range validation -/

/-- C2 counterexample: the request `exReqBad` has `lat = 200 > 90`,
`severity = 5 > 1` and `confidence = -2 < 0`, yet `create_hazard` raises
nothing and persists the hazard, refuting the claim that such inputs fail
with a `ValidationError` and persist nothing. -/
theorem C2_out_of_range_hazard_persisted :
    ((create_hazard emptyDB exReqBad 0).2 ∈ (create_hazard emptyDB exReqBad 0).1.hazards) ∧
    ¬ (exReqBad.lat ≤ 90) ∧ ¬ (exReqBad.severity ≤ 1) ∧ ¬ (0 ≤ exReqBad.confidence) := by
  decide

/-- C2 amended: no range validation exists on the hazard-creation path
(the schema has plain `float` fields with no validators and the CRUD layer
checks nothing): for every input, including out-of-range latitude,
longitude, severity and confidence, creation succeeds and persists the
hazard with exactly the given field values. -/
theorem C2_create_hazard_never_validates (db : DB) (req : HazardCreate) (now : Int) :
    (create_hazard db req now).2 ∈ (create_hazard db req now).1.hazards ∧
    (create_hazard db req now).2.severity = req.severity ∧
    (create_hazard db req now).2.confidence = req.confidence ∧
    (create_hazard db req now).2.geom = { x := req.lon, y := req.lat } := by
  refine ⟨?_, rfl, rfl, rfl⟩
  simp [create_hazard]

/-! ## C5 — receiver/alert-type invariant -/

/-- C5 counterexample: creating an alert of type `local` with a supplied
receiver stores a local alert whose `receiver_device_id` is set, refuting
the claimed invariant `receiver_device_id` set ↔ `alert_type = v2v`. -/
theorem C5_local_alert_with_receiver :
    (create_alert emptyDB exReqLocalRecv 0).2.alert_type = "local" ∧
    (create_alert emptyDB exReqLocalRecv 0).2.receiver_device_id = some 2 ∧
    (create_alert emptyDB exReqLocalRecv 0).2 ∈ (create_alert emptyDB exReqLocalRecv 0).1.alerts := by
  decide

/-- C5 amended: the stored alert's `receiver_device_id` is set if and only
if the creation request supplied a truthy — non-`None` and non-empty —
`receiver_device_id` (the source guards with Python truthiness, under
which the empty string also means "no receiver"), and `alert_type` is
stored exactly as given — the two fields are never cross-checked. -/
theorem C5_receiver_iff_supplied (db : DB) (req : AlertCreate) (now : Int) :
    ((create_alert db req now).2.receiver_device_id.isSome ↔
      req.receiver_device_id.getD "" ≠ "") ∧
    (create_alert db req now).2.alert_type = req.alert_type := by
  rcases hr : req.receiver_device_id with _ | rid
  · simp [create_alert, hr]
  · by_cases hrid : rid = "" <;> simp [create_alert, hr, hrid]

/-! ## Helper lemmas about row lookup and first-row update -/

/-- Looking a device up after updating the first matching row finds the
updated row, provided the update preserves the key. -/
theorem find?_updateFirstDevice (did : String) (f : Device → Device)
    (hf : ∀ x, (f x).device_id = x.device_id) :
    ∀ (l : List Device) (d : Device),
      l.find? (fun x => x.device_id == did) = some d →
      (updateFirstDevice did f l).find? (fun x => x.device_id == did) = some (f d)
  | [], _, h => by simp at h
  | a :: as, d, h => by
      by_cases ha : a.device_id = did
      · have hb : (a.device_id == did) = true := by simp [ha]
        have hfind : (a :: as).find? (fun x => x.device_id == did) = some a := by
          simp [List.find?, hb]
        rw [h] at hfind
        cases hfind
        have hb' : ((f a).device_id == did) = true := by simp [hf, ha]
        simp [updateFirstDevice, hb, List.find?, hb']
      · have hb : (a.device_id == did) = false := by simp [ha]
        have h' : as.find? (fun x => x.device_id == did) = some d := by
          simpa [List.find?, hb] using h
        simpa [updateFirstDevice, hb, List.find?] using
          find?_updateFirstDevice did f hf as d h'

/-- Appending a row with a strictly larger key than every existing row and
then searching for that key finds exactly the new row. -/
theorem find?_append_fresh_hazard (h : Hazard) :
    ∀ (l : List Hazard), (∀ x ∈ l, x.id < h.id) →
      (l ++ [h]).find? (fun x => x.id == h.id) = some h
  | [], _ => by simp
  | a :: as, hlt => by
      have hne : (a.id == h.id) = false := by
        simp only [beq_eq_false_iff_ne, ne_eq]
        exact Nat.ne_of_lt (hlt a (List.mem_cons_self a as))
      simp only [List.cons_append, List.find?, hne]
      exact find?_append_fresh_hazard h as (fun x hx => hlt x (List.mem_cons_of_mem a hx))

/-- Device auto-registration touches only the `devices` table and its
counter. -/
theorem getOrCreateDevice_frame (db : DB) (did : String) (now : Int) :
    (getOrCreateDevice db did now).1.hazards = db.hazards ∧
    (getOrCreateDevice db did now).1.nextHazardId = db.nextHazardId ∧
    (getOrCreateDevice db did now).1.alerts = db.alerts ∧
    (getOrCreateDevice db did now).1.nextAlertId = db.nextAlertId := by
  cases h : findDevice db did <;> simp [getOrCreateDevice, h]

/-- The alerts table after `create_alert` is the old table with the new
alert appended, whichever branch the sender/receiver auto-registration
takes. -/
theorem create_alert_alerts (db : DB) (req : AlertCreate) (now : Int) :
    (create_alert db req now).1.alerts = db.alerts ++ [(create_alert db req now).2] := by
  rcases hr : req.receiver_device_id with _ | rid
  · simp only [create_alert, hr,
      (getOrCreateDevice_frame db req.sender_device_id now).2.2.1]
  · by_cases hrid : rid = ""
    · simp only [create_alert, hr, if_pos hrid,
        (getOrCreateDevice_frame db req.sender_device_id now).2.2.1]
    · simp only [create_alert, hr, if_neg hrid,
        (getOrCreateDevice_frame (getOrCreateDevice db req.sender_device_id now).1 rid now).2.2.1,
        (getOrCreateDevice_frame db req.sender_device_id now).2.2.1]

/-- `get_hazard` run right after `create_hazard` returns the row just
created, provided existing keys are below the serial counter. -/
theorem get_hazard_create (db : DB) (req : HazardCreate) (now : Int)
    (hfresh : ∀ x ∈ db.hazards, x.id < db.nextHazardId) :
    get_hazard (create_hazard db req now).1 (create_hazard db req now).2.id =
      some (create_hazard db req now).2 := by
  obtain ⟨h1, h2, -, -⟩ := getOrCreateDevice_frame db req.device_id now
  show ((getOrCreateDevice db req.device_id now).1.hazards ++
      [(create_hazard db req now).2]).find?
        (fun x => x.id == (create_hazard db req now).2.id) =
      some (create_hazard db req now).2
  apply find?_append_fresh_hazard
  intro x hx
  rw [h1] at hx
  have : (create_hazard db req now).2.id = db.nextHazardId := by
    show (getOrCreateDevice db req.device_id now).1.nextHazardId = db.nextHazardId
    exact h2
  rw [this]
  exact hfresh x hx

/-! ## C10 — registerOrUpdate with omitted optional fields -/

/-- C10: for a device already in the registry, `register_or_update_device`
called with `model` and `firmware_version` omitted (`none`) overwrites the
stored `model` and `firmware_version` with `none`, while `device_id`,
`registered_at` and `last_seen` keep their previous values; the returned
row is the stored row. -/
theorem C10_register_none_overwrites (db : DB) (did dt : String) (now : Int) (d : Device)
    (h : findDevice db did = some d) :
    (register_or_update_device db did dt none none now).2.model = none ∧
    (register_or_update_device db did dt none none now).2.firmware_version = none ∧
    (register_or_update_device db did dt none none now).2.device_id = d.device_id ∧
    (register_or_update_device db did dt none none now).2.registered_at = d.registered_at ∧
    (register_or_update_device db did dt none none now).2.last_seen = d.last_seen ∧
    findDevice (register_or_update_device db did dt none none now).1 did =
      some (register_or_update_device db did dt none none now).2 := by
  refine ⟨?_, ?_, ?_, ?_, ?_, ?_⟩ <;> simp only [register_or_update_device, h]
  exact find?_updateFirstDevice did
    (fun x => { x with device_type := dt, model := none
                       firmware_version := none, last_active := now })
    (fun x => rfl) db.devices d h

/-- The first device row of `exDB1`. -/
def exDev1 : Device :=
  { id := 1, device_id := "dev1", device_type := "car", model := none
    firmware_version := none, registered_at := 0, last_seen := 0, last_active := 0 }

/-- C10 witness: the theorem applied to `exDB1` and its registered device
`dev1`. -/
theorem C10_register_none_overwrites_witness :
    findDevice exDB1 "dev1" = some exDev1 ∧
    ((register_or_update_device exDB1 "dev1" "truck" none none 50).2.model = none ∧
     (register_or_update_device exDB1 "dev1" "truck" none none 50).2.firmware_version = none ∧
     (register_or_update_device exDB1 "dev1" "truck" none none 50).2.device_id = exDev1.device_id ∧
     (register_or_update_device exDB1 "dev1" "truck" none none 50).2.registered_at = exDev1.registered_at ∧
     (register_or_update_device exDB1 "dev1" "truck" none none 50).2.last_seen = exDev1.last_seen ∧
     findDevice (register_or_update_device exDB1 "dev1" "truck" none none 50).1 "dev1" =
       some (register_or_update_device exDB1 "dev1" "truck" none none 50).2) :=
  ⟨by decide, C10_register_none_overwrites exDB1 "dev1" "truck" 50 exDev1 (by decide)⟩

/-! ## C8 — coordinate round-trip -/

/-- C8: reading a freshly created hazard through
`get_hazard_with_location` reconstructs exactly the request's `lat` from
the stored point's Y coordinate and `lon` from its X coordinate — no
precision loss (the embedding is exact rational arithmetic) and no axis
swap. -/
theorem C8_coordinate_roundtrip (db : DB) (req : HazardCreate) (now : Int)
    (hfresh : ∀ x ∈ db.hazards, x.id < db.nextHazardId) :
    get_hazard_with_location (create_hazard db req now).1 (create_hazard db req now).2.id =
      some { id := (create_hazard db req now).2.id, hazard_type := req.hazard_type
             severity := req.severity, confidence := req.confidence, ts := now
             lat := req.lat, lon := req.lon } := by
  have hg := get_hazard_create db req now hfresh
  have hg' : (create_hazard db req now).1.hazards.find?
      (fun x => x.id == (create_hazard db req now).2.id) =
      some (create_hazard db req now).2 := hg
  simp only [get_hazard_with_location, hg, hg']
  rfl

/-- C8 witness: creating a hazard at (lat 13, lon 77) in the empty store
and reading it back yields exactly lat 13, lon 77. -/
theorem C8_coordinate_roundtrip_witness :
    (∀ x ∈ emptyDB.hazards, x.id < emptyDB.nextHazardId) ∧
    get_hazard_with_location
        (create_hazard emptyDB { lat := 13, lon := 77, hazard_type := "pothole"
                                 severity := 1/2, confidence := 9/10, device_id := "d" } 5).1
        (create_hazard emptyDB { lat := 13, lon := 77, hazard_type := "pothole"
                                 severity := 1/2, confidence := 9/10, device_id := "d" } 5).2.id =
      some { id := (create_hazard emptyDB { lat := 13, lon := 77, hazard_type := "pothole"
                                            severity := 1/2, confidence := 9/10, device_id := "d" } 5).2.id
             hazard_type := "pothole", severity := 1/2, confidence := 9/10, ts := 5
             lat := 13, lon := 77 } :=
  ⟨by decide, C8_coordinate_roundtrip emptyDB _ 5 (by decide)⟩

/-! ## C3 — acknowledgment idempotence and the acknowledged_at invariant -/

/-- The spec's alert-timestamp invariant: `acknowledged_at` is set iff
`status = acknowledged`. -/
def ackInv (a : Alert) : Prop :=
  a.acknowledged_at ≠ none ↔ a.status = "acknowledged"

instance (a : Alert) : Decidable (ackInv a) := by
  unfold ackInv
  infer_instance

/-- Updating the first matching row preserves any property that every old
row has and that the update establishes. -/
theorem updateFirstAlert_forall {P : Alert → Prop} (alert_id : Nat) (f : Alert → Alert)
    (hP : ∀ y, P (f y)) :
    ∀ l : List Alert, (∀ x ∈ l, P x) → ∀ x ∈ updateFirstAlert alert_id f l, P x
  | [], _, x, hx => by simp [updateFirstAlert] at hx
  | a :: as, hl, x, hx => by
      by_cases ha : (a.id == alert_id) = true
      · rw [updateFirstAlert, if_pos ha] at hx
        rcases List.mem_cons.mp hx with heq | hx'
        · exact heq ▸ hP a
        · exact hl x (List.mem_cons_of_mem a hx')
      · rw [updateFirstAlert, if_neg ha] at hx
        rcases List.mem_cons.mp hx with heq | hx'
        · exact heq ▸ hl a (List.mem_cons_self a as)
        · exact updateFirstAlert_forall alert_id f hP as
            (fun y hy => hl y (List.mem_cons_of_mem a hy)) x hx'

/-- `exDB1` after a first acknowledgment of alert 1 by its sender `dev1`
at time 100. -/
def exDB1Ack : DB :=
  match acknowledge_alert exDB1 1 "dev1" 100 with
  | some p => p.1
  | none => exDB1

/-- C3 counterexample: alert 1 of `exDB1` is acknowledged by its own
sender `dev1` at time 100; in the resulting state the alert has status
`acknowledged`, and a second acknowledge by the same authorized device at
time 200 returns `acknowledged_at = 200`, not the first call's value 100 —
refuting the claimed idempotence. -/
theorem C3_second_acknowledge_changes_timestamp :
    (acknowledge_alert exDB1 1 "dev1" 100).map (fun p => p.2.acknowledged_at) =
      some (some 100) ∧
    (get_alert exDB1Ack 1).map (fun a => a.status) = some "acknowledged" ∧
    (acknowledge_alert exDB1Ack 1 "dev1" 200).map (fun p => p.2.acknowledged_at) =
      some (some 200) ∧
    (some (200 : Int) ≠ some (100 : Int)) := by
  decide

/-- C3 amended: a successful acknowledge always returns
`acknowledged_at = now` of that very call (so a second call on an
already-acknowledged alert overwrites the timestamp rather than returning
the first one — acknowledgment is not idempotent); the invariant
`acknowledged_at` set ↔ `status = acknowledged` is established by
`create_alert` for every stored alert and preserved by
`acknowledge_alert`. -/
theorem C3_ack_timestamp_overwrite_and_invariant :
    (∀ (db : DB) (alert_id : Nat) (device_id : String) (now : Int) (p : DB × Alert),
        acknowledge_alert db alert_id device_id now = some p →
        p.2.acknowledged_at = some now ∧ p.2.status = "acknowledged") ∧
    (∀ (db : DB) (req : AlertCreate) (now : Int),
        (∀ x ∈ db.alerts, ackInv x) →
        ∀ x ∈ (create_alert db req now).1.alerts, ackInv x) ∧
    (∀ (db : DB) (alert_id : Nat) (device_id : String) (now : Int) (p : DB × Alert),
        (∀ x ∈ db.alerts, ackInv x) →
        acknowledge_alert db alert_id device_id now = some p →
        (∀ x ∈ p.1.alerts, ackInv x) ∧ ackInv p.2) := by
  refine ⟨?_, ?_, ?_⟩
  · intro db alert_id device_id now p hp
    rcases hd : findDevice db device_id with _ | d <;>
      rcases ha : get_alert db alert_id with _ | alert <;>
        simp only [acknowledge_alert, hd, ha] at hp <;> cases hp
    exact ⟨rfl, rfl⟩
  · intro db req now hinv x hx
    rw [create_alert_alerts db req now, List.mem_append] at hx
    rcases hx with hx | hx
    · exact hinv x hx
    · rw [List.mem_singleton] at hx
      subst hx
      have h1 : (create_alert db req now).2.acknowledged_at = none := rfl
      have h2 : (create_alert db req now).2.status = "sent" := rfl
      rw [ackInv, h1, h2]
      simp
  · intro db alert_id device_id now p hinv hp
    rcases hd : findDevice db device_id with _ | d <;>
      rcases ha : get_alert db alert_id with _ | alert <;>
        simp only [acknowledge_alert, hd, ha] at hp <;> cases hp
    constructor
    · exact updateFirstAlert_forall alert_id _ (fun y => by simp [ackInv]) db.alerts hinv
    · simp [ackInv]

/-- The result of the first acknowledgment used by the C3 witness. -/
def exAckResult : DB × Alert :=
  match acknowledge_alert exDB1 1 "dev1" 100 with
  | some p => p
  | none =>
      (exDB1,
       { id := 0, hazard_id := none, sender_device_id := 0, receiver_device_id := none
         alert_type := "local", status := "sent", created_at := 0, acknowledged_at := none })

/-- C3 witness: the amended theorem applied to the concrete state `exDB1`,
the concrete request `exReqLocalRecv`, and the concrete acknowledgment of
alert 1 by `dev1` at time 100. -/
theorem C3_ack_timestamp_overwrite_and_invariant_witness :
    (acknowledge_alert exDB1 1 "dev1" 100 = some exAckResult) ∧
    (exAckResult.2.acknowledged_at = some 100 ∧ exAckResult.2.status = "acknowledged") ∧
    (∀ x ∈ exDB1.alerts, ackInv x) ∧
    (∀ x ∈ (create_alert exDB1 exReqLocalRecv 7).1.alerts, ackInv x) ∧
    ((∀ x ∈ exAckResult.1.alerts, ackInv x) ∧ ackInv exAckResult.2) :=
  ⟨by decide,
   C3_ack_timestamp_overwrite_and_invariant.1 exDB1 1 "dev1" 100 exAckResult (by decide),
   by decide,
   C3_ack_timestamp_overwrite_and_invariant.2.1 exDB1 exReqLocalRecv 7 (by decide),
   C3_ack_timestamp_overwrite_and_invariant.2.2 exDB1 1 "dev1" 100 exAckResult
     (by decide) (by decide)⟩

/-! ## C4 — radius query -/

theorem perm_insertTsDesc (h : Hazard) :
    ∀ l : List Hazard, (insertTsDesc h l).Perm (h :: l)
  | [] => List.Perm.refl _
  | a :: as => by
      rw [insertTsDesc]
      by_cases hle : a.ts ≤ h.ts
      · rw [if_pos hle]
      · rw [if_neg hle]
        exact ((perm_insertTsDesc h as).cons a).trans (List.Perm.swap h a as)

theorem perm_sortTsDesc : ∀ l : List Hazard, (sortTsDesc l).Perm l
  | [] => List.Perm.refl _
  | a :: as =>
      (perm_insertTsDesc a (sortTsDesc as)).trans ((perm_sortTsDesc as).cons a)

theorem mem_insertTsDesc (h x : Hazard) (l : List Hazard) :
    x ∈ insertTsDesc h l ↔ x = h ∨ x ∈ l :=
  ((perm_insertTsDesc h l).mem_iff).trans (List.mem_cons)

theorem mem_sortTsDesc (x : Hazard) (l : List Hazard) :
    x ∈ sortTsDesc l ↔ x ∈ l :=
  (perm_sortTsDesc l).mem_iff

theorem pairwise_insertTsDesc (h : Hazard) :
    ∀ l : List Hazard, List.Pairwise (fun a b => b.ts ≤ a.ts) l →
      List.Pairwise (fun a b => b.ts ≤ a.ts) (insertTsDesc h l)
  | [], _ => List.pairwise_singleton _ h
  | a :: as, hp => by
      rw [insertTsDesc]
      rcases List.pairwise_cons.mp hp with ⟨hhead, htail⟩
      by_cases hle : a.ts ≤ h.ts
      · rw [if_pos hle]
        refine List.pairwise_cons.mpr ⟨?_, hp⟩
        intro y hy
        rcases List.mem_cons.mp hy with heq | hy'
        · exact heq ▸ hle
        · exact le_trans (hhead y hy') hle
      · rw [if_neg hle]
        refine List.pairwise_cons.mpr ⟨?_, pairwise_insertTsDesc h as htail⟩
        intro y hy
        rcases (mem_insertTsDesc h y as).mp hy with heq | hy'
        · exact heq ▸ le_of_lt (lt_of_not_le hle)
        · exact hhead y hy'

theorem pairwise_sortTsDesc : ∀ l : List Hazard,
    List.Pairwise (fun a b => b.ts ≤ a.ts) (sortTsDesc l)
  | [] => List.Pairwise.nil
  | a :: as => pairwise_insertTsDesc a (sortTsDesc as) (pairwise_sortTsDesc as)

/-- C4: for every query point and radius, and for every distance function
`dist` (the embedding's stand-in for PostGIS `ST_Distance` on `Geography`
operands, i.e. geodesic meters on the geographic model rather than planar
degrees), `get_hazards_nearby` returns a permutation of exactly the stored
hazards whose distance from the query point is at most `radius_m` — every
such hazard and no farther one — ordered by timestamp descending. -/
theorem C4_nearby_exact_and_sorted (dist : GeoPoint → GeoPoint → ℚ) (db : DB)
    (lat lon radius_m : ℚ) :
    (get_hazards_nearby dist db lat lon radius_m).Perm
      (db.hazards.filter (fun h => decide (dist h.geom { x := lon, y := lat } ≤ radius_m))) ∧
    (∀ h : Hazard, h ∈ get_hazards_nearby dist db lat lon radius_m ↔
        (h ∈ db.hazards ∧ dist h.geom { x := lon, y := lat } ≤ radius_m)) ∧
    List.Pairwise (fun a b => b.ts ≤ a.ts) (get_hazards_nearby dist db lat lon radius_m) := by
  refine ⟨perm_sortTsDesc _, ?_, pairwise_sortTsDesc _⟩
  intro h
  rw [get_hazards_nearby, mem_sortTsDesc, List.mem_filter, decide_eq_true_eq]

/-! ## C6 — notifier failure isolation -/

/-- Reading the freshly created hazard back through
`get_hazard_with_location` (the route's response step) succeeds and
returns the request's own field values. -/
theorem route_read_back (db : DB) (req : HazardCreate) (now : Int)
    (hfresh : ∀ x ∈ db.hazards, x.id < db.nextHazardId) :
    get_hazard_with_location (create_hazard db req now).1 (create_hazard db req now).2.id =
      some { id := (create_hazard db req now).2.id, hazard_type := req.hazard_type
             severity := req.severity, confidence := req.confidence, ts := now
             lat := req.lat, lon := req.lon } := by
  have hg := get_hazard_create db req now hfresh
  have hg' : (create_hazard db req now).1.hazards.find?
      (fun x => x.id == (create_hazard db req now).2.id) =
      some (create_hazard db req now).2 := hg
  simp only [get_hazard_with_location, hg, hg']
  rfl

/-- C6: the notifier never fails the hazard-creation response. When the
transport client is absent, disconnected, or the transport raises,
`publish_hazard_alert` reports `false` — it is a total function into
`Bool`, so no exception propagates — and for every client/transport state
the route returns the same success result carrying the persisted
hazard. -/
theorem C6_notifier_never_fails_creation :
    (∀ (transport : TransportOutcome) (hid : Nat) (ht ts : String) (la lo : ℚ) (q : Nat),
        (publish_hazard_alert none transport hid ht la lo ts q).1 = false) ∧
    (∀ (c : MqttClient) (transport : TransportOutcome) (hid : Nat) (ht ts : String)
        (la lo : ℚ) (q : Nat),
        c.connected = false →
        (publish_hazard_alert (some c) transport hid ht la lo ts q).1 = false) ∧
    (∀ (c : MqttClient) (e : String) (hid : Nat) (ht ts : String) (la lo : ℚ) (q : Nat),
        (publish_hazard_alert (some c) (Except.error e) hid ht la lo ts q).1 = false) ∧
    (∀ (db : DB) (req : HazardCreate) (now : Int) (client : Option MqttClient)
        (transport : TransportOutcome),
        (∀ x ∈ db.hazards, x.id < db.nextHazardId) →
        (createHazardRoute db req now client transport).1 =
          Except.ok ({ id := (create_hazard db req now).2.id, hazard_type := req.hazard_type
                       severity := req.severity, confidence := req.confidence, ts := now
                       lat := req.lat, lon := req.lon }, (create_hazard db req now).1) ∧
        (create_hazard db req now).2 ∈ (create_hazard db req now).1.hazards) := by
  refine ⟨?_, ?_, ?_, ?_⟩
  · intro transport hid ht ts la lo q
    rfl
  · intro c transport hid ht ts la lo q hc
    simp [publish_hazard_alert, hc]
  · intro c e hid ht ts la lo q
    cases hc : c.connected <;> simp [publish_hazard_alert, hc]
  · intro db req now client transport hfresh
    constructor
    · simp only [createHazardRoute, route_read_back db req now hfresh]
    · simp [create_hazard]

/-- C6 witness: the theorem applied with a concrete absent client, a
concrete disconnected client, a concrete raising transport, and the
concrete creation of `exReqBad` in the empty store with the notifier
completely down. -/
theorem C6_notifier_never_fails_creation_witness :
    (publish_hazard_alert none (Except.ok 0) 1 "pothole" 1 2 "t" 1).1 = false ∧
    (({ connected := false } : MqttClient).connected = false) ∧
    (publish_hazard_alert (some { connected := false }) (Except.ok 0) 1 "pothole" 1 2 "t" 1).1 = false ∧
    (publish_hazard_alert (some { connected := true }) (Except.error "boom") 1 "pothole" 1 2 "t" 1).1 = false ∧
    (∀ x ∈ emptyDB.hazards, x.id < emptyDB.nextHazardId) ∧
    ((createHazardRoute emptyDB exReqBad 0 none (Except.error "down")).1 =
        Except.ok ({ id := (create_hazard emptyDB exReqBad 0).2.id
                     hazard_type := exReqBad.hazard_type
                     severity := exReqBad.severity, confidence := exReqBad.confidence
                     ts := 0, lat := exReqBad.lat, lon := exReqBad.lon },
                   (create_hazard emptyDB exReqBad 0).1) ∧
      (create_hazard emptyDB exReqBad 0).2 ∈ (create_hazard emptyDB exReqBad 0).1.hazards) :=
  ⟨C6_notifier_never_fails_creation.1 (Except.ok 0) 1 "pothole" "t" 1 2 1,
   rfl,
   C6_notifier_never_fails_creation.2.1 { connected := false } (Except.ok 0) 1 "pothole" "t" 1 2 1 rfl,
   C6_notifier_never_fails_creation.2.2.1 { connected := true } "boom" 1 "pothole" "t" 1 2 1,
   by decide,
   C6_notifier_never_fails_creation.2.2.2 emptyDB exReqBad 0 none (Except.error "down") (by decide)⟩

/-! ## C7 — notification topic and payload -/

/-- C7 counterexample: a connected publish of a `pothole` hazard hands the
transport the topic `hazards/alerts/pothole`, which is not the
`alerts/pothole` topic the claim names. -/
theorem C7_topic_has_hazards_prefix :
    (publish_hazard_alert (some { connected := true }) (Except.ok 0)
        7 "pothole" 13 77 "2024-01-01T00:00:00" 1).2 =
      some { topic := "hazards/alerts/pothole"
             payload := [("hazard_id", PayloadValue.nat 7),
                         ("hazard_type", PayloadValue.str "pothole"),
                         ("latitude", PayloadValue.rat 13),
                         ("longitude", PayloadValue.rat 77),
                         ("timestamp", PayloadValue.str "2024-01-01T00:00:00")]
             qos := 1 } ∧
    "hazards/alerts/pothole" ≠ "alerts/pothole" := by
  constructor
  · rfl
  · decide

/-- C7 amended: every attempted publish goes to the topic
`hazards/alerts/<hazard_type>` (still partitioned by hazard type, but
under the `hazards/` prefix rather than the bare `alerts/` of the claim),
and the payload is a flat structure of exactly the five keys hazard id,
hazard type, latitude, longitude and timestamp; the hazard-creation route
passes as timestamp the ISO-8601 rendering of the hazard's creation
time. -/
theorem C7_topic_and_payload :
    (∀ (c : MqttClient) (transport : TransportOutcome) (hid : Nat) (ht ts : String)
        (la lo : ℚ) (q : Nat),
        c.connected = true →
        (publish_hazard_alert (some c) transport hid ht la lo ts q).2 =
          some { topic := "hazards/alerts/" ++ ht
                 payload := [("hazard_id", PayloadValue.nat hid),
                             ("hazard_type", PayloadValue.str ht),
                             ("latitude", PayloadValue.rat la),
                             ("longitude", PayloadValue.rat lo),
                             ("timestamp", PayloadValue.str ts)]
                 qos := q }) ∧
    (∀ (db : DB) (req : HazardCreate) (now : Int) (c : MqttClient)
        (transport : TransportOutcome),
        c.connected = true →
        (∀ x ∈ db.hazards, x.id < db.nextHazardId) →
        (createHazardRoute db req now (some c) transport).2.2 =
          some { topic := "hazards/alerts/" ++ req.hazard_type
                 payload := [("hazard_id", PayloadValue.nat (create_hazard db req now).2.id),
                             ("hazard_type", PayloadValue.str req.hazard_type),
                             ("latitude", PayloadValue.rat req.lat),
                             ("longitude", PayloadValue.rat req.lon),
                             ("timestamp", PayloadValue.str (isoformat now))]
                 qos := 1 }) := by
  constructor
  · intro c transport hid ht ts la lo q hc
    cases transport <;> simp [publish_hazard_alert, hc]
  · intro db req now c transport hc hfresh
    simp only [createHazardRoute, route_read_back db req now hfresh]
    cases transport <;> simp [publish_hazard_alert, hc]

/-- C7 witness: the amended theorem applied to a concrete connected client
and the concrete creation of `exReqBad` at time 0. -/
theorem C7_topic_and_payload_witness :
    (({ connected := true } : MqttClient).connected = true) ∧
    ((publish_hazard_alert (some { connected := true }) (Except.ok 3) 9 "debris" 5 6 "t" 2).2 =
      some { topic := "hazards/alerts/" ++ "debris"
             payload := [("hazard_id", PayloadValue.nat 9),
                         ("hazard_type", PayloadValue.str "debris"),
                         ("latitude", PayloadValue.rat 5),
                         ("longitude", PayloadValue.rat 6),
                         ("timestamp", PayloadValue.str "t")]
             qos := 2 }) ∧
    (∀ x ∈ emptyDB.hazards, x.id < emptyDB.nextHazardId) ∧
    ((createHazardRoute emptyDB exReqBad 0 (some { connected := true }) (Except.ok 0)).2.2 =
      some { topic := "hazards/alerts/" ++ exReqBad.hazard_type
             payload := [("hazard_id", PayloadValue.nat (create_hazard emptyDB exReqBad 0).2.id),
                         ("hazard_type", PayloadValue.str exReqBad.hazard_type),
                         ("latitude", PayloadValue.rat exReqBad.lat),
                         ("longitude", PayloadValue.rat exReqBad.lon),
                         ("timestamp", PayloadValue.str (isoformat 0))]
             qos := 1 }) :=
  ⟨rfl,
   C7_topic_and_payload.1 { connected := true } (Except.ok 3) 9 "debris" "t" 5 6 2 rfl,
   by decide,
   C7_topic_and_payload.2 emptyDB exReqBad 0 { connected := true } (Except.ok 0) rfl (by decide)⟩

/-! ## C9 — hazard trends -/

theorem mem_insertAscDedup (d x : Int) :
    ∀ l : List Int, x ∈ insertAscDedup d l ↔ x = d ∨ x ∈ l
  | [] => by simp [insertAscDedup]
  | a :: as => by
      rw [insertAscDedup]
      by_cases hlt : d < a
      · rw [if_pos hlt, List.mem_cons]
      · rw [if_neg hlt]
        by_cases heq : d = a
        · rw [if_pos heq]
          subst heq
          rw [List.mem_cons]
          tauto
        · rw [if_neg heq, List.mem_cons, List.mem_cons, mem_insertAscDedup d x as]
          tauto

theorem pairwise_insertAscDedup (d : Int) :
    ∀ l : List Int, l.Pairwise (· < ·) → (insertAscDedup d l).Pairwise (· < ·)
  | [], _ => by simp [insertAscDedup]
  | a :: as, hp => by
      rw [insertAscDedup]
      rcases List.pairwise_cons.mp hp with ⟨hhead, htail⟩
      by_cases hlt : d < a
      · rw [if_pos hlt]
        refine List.pairwise_cons.mpr ⟨?_, hp⟩
        intro y hy
        rcases List.mem_cons.mp hy with hy' | hy'
        · exact hy' ▸ hlt
        · exact lt_trans hlt (hhead y hy')
      · rw [if_neg hlt]
        by_cases heq : d = a
        · rw [if_pos heq]
          exact hp
        · rw [if_neg heq]
          refine List.pairwise_cons.mpr ⟨?_, pairwise_insertAscDedup d as htail⟩
          intro y hy
          rcases (mem_insertAscDedup d y as).mp hy with hy' | hy'
          · exact hy' ▸ lt_of_le_of_ne (not_lt.mp hlt) (fun hh => heq hh.symm)
          · exact hhead y hy'

theorem mem_sortedDays (x : Int) : ∀ l : List Int, x ∈ sortedDays l ↔ x ∈ l
  | [] => by simp [sortedDays]
  | a :: as => by
      show x ∈ insertAscDedup a (sortedDays as) ↔ _
      rw [mem_insertAscDedup, mem_sortedDays x as, List.mem_cons]

theorem pairwise_sortedDays : ∀ l : List Int, (sortedDays l).Pairwise (· < ·)
  | [] => List.Pairwise.nil
  | a :: as => pairwise_insertAscDedup a (sortedDays as) (pairwise_sortedDays as)

/-- Membership in the per-type grouping: one entry per type that occurs,
counting every hazard of that type over all time. -/
theorem mem_hazardsByType (db : DB) (t : String) (c : Nat) :
    (t, c) ∈ hazardsByType db ↔
      ((∃ h ∈ db.hazards, h.hazard_type = t) ∧
       c = (db.hazards.filter (fun h => h.hazard_type == t)).length) := by
  simp only [hazardsByType, List.mem_map, List.mem_dedup, Prod.mk.injEq]
  constructor
  · rintro ⟨a, ha, rfl, rfl⟩
    rcases ha with ⟨h, hh, hht⟩
    exact ⟨⟨h, hh, hht⟩, rfl⟩
  · rintro ⟨⟨h, hh, hht⟩, rfl⟩
    exact ⟨t, ⟨h, hh, hht⟩, rfl, rfl⟩

/-- C9: for every `days` in [1, 365] (the route's bound) and every store
whose timestamps are creation times (≤ now), `hazards_by_type` counts all
stored hazards regardless of age, and `hazards_by_day` has exactly one
entry per calendar day carrying at least one hazard of the trailing
`days` window, in ascending date order, each count being the number of
in-window hazards of that day. -/
theorem C9_trends_by_type_all_time_by_day_windowed (db : DB) (now : Int) (days : Nat)
    (_hd1 : 1 ≤ days) (_hd2 : days ≤ 365)
    (hts : ∀ h ∈ db.hazards, h.ts ≤ now) :
    (∀ (t : String) (c : Nat), (t, c) ∈ (get_hazard_trends db now days).1 ↔
        ((∃ h ∈ db.hazards, h.hazard_type = t) ∧
         c = (db.hazards.filter (fun h => h.hazard_type == t)).length)) ∧
    List.Pairwise (fun a b => a.1 < b.1) (get_hazard_trends db now days).2 ∧
    (∀ (d : Int) (c : Nat), (d, c) ∈ (get_hazard_trends db now days).2 ↔
        ((∃ h ∈ db.hazards,
            (now - (days : Int) * 86400 ≤ h.ts ∧ h.ts ≤ now) ∧ dateOf h.ts = d) ∧
         c = (db.hazards.filter
               (fun h => decide (now - (days : Int) * 86400 ≤ h.ts ∧ h.ts ≤ now) &&
                         (dateOf h.ts == d))).length)) := by
  refine ⟨fun t c => mem_hazardsByType db t c, ?_, ?_⟩
  · show List.Pairwise _ ((sortedDays _).map _)
    rw [List.pairwise_map]
    exact pairwise_sortedDays _
  · intro d c
    show (d, c) ∈ (sortedDays ((db.hazards.filter
        (fun h => decide (now - (days : Int) * 86400 ≤ h.ts))).map
          (fun h => dateOf h.ts))).map
        (fun d => (d, ((db.hazards.filter
          (fun h => decide (now - (days : Int) * 86400 ≤ h.ts))).filter
            (fun h => dateOf h.ts == d)).length)) ↔ _
    have hcount : ∀ d' : Int,
        ((db.hazards.filter (fun h => decide (now - (days : Int) * 86400 ≤ h.ts))).filter
          (fun h => dateOf h.ts == d')).length =
        (db.hazards.filter
          (fun h => decide (now - (days : Int) * 86400 ≤ h.ts ∧ h.ts ≤ now) &&
                    (dateOf h.ts == d'))).length := by
      intro d'
      rw [List.filter_filter]
      congr 1
      apply List.filter_congr
      intro h hh
      have hle := hts h hh
      by_cases hs : now - (days : Int) * 86400 ≤ h.ts <;> simp [hs, hle]
    constructor
    · intro hmem
      rcases List.mem_map.mp hmem with ⟨a, ha, heq⟩
      rcases Prod.mk.injEq .. |>.mp heq with ⟨rfl, rfl⟩
      rw [mem_sortedDays] at ha
      rcases List.mem_map.mp ha with ⟨h, hh, hdate⟩
      rcases List.mem_filter.mp hh with ⟨hh', hwin⟩
      rw [decide_eq_true_eq] at hwin
      exact ⟨⟨h, hh', ⟨hwin, hts h hh'⟩, hdate⟩, (hcount _).symm ▸ rfl⟩
    · rintro ⟨⟨h, hh, ⟨hwin, -⟩, hdate⟩, rfl⟩
      refine List.mem_map.mpr ⟨d, ?_, ?_⟩
      · rw [mem_sortedDays]
        exact List.mem_map.mpr ⟨h, List.mem_filter.mpr ⟨hh, decide_eq_true hwin⟩, hdate⟩
      · rw [hcount d]

/-- A store with one hazard on calendar day 2 and one on day 9 (seconds
since epoch), used to witness the trends theorem at `now` = start of day
10 with a 7-day window. -/
def exDB9 : DB :=
  { devices :=
      [{ id := 1, device_id := "d", device_type := "car", model := none
         firmware_version := none, registered_at := 0, last_seen := 0, last_active := 0 }]
    hazards :=
      [{ id := 1, hazard_type := "pothole", severity := 1/2, confidence := 1/2
         geom := { x := 77, y := 13 }, ts := 2 * 86400 + 10, device_id := 1 },
       { id := 2, hazard_type := "debris", severity := 1/2, confidence := 1/2
         geom := { x := 77, y := 13 }, ts := 9 * 86400 + 5, device_id := 1 }]
    alerts := [], configs := []
    nextDeviceId := 2, nextHazardId := 3, nextAlertId := 1, nextConfigId := 1 }

/-- C9 witness: the trends theorem applied to `exDB9` with `now` at the
start of day 10 and a 7-day window. -/
theorem C9_trends_by_type_all_time_by_day_windowed_witness :
    (1 ≤ 7) ∧ (7 ≤ 365) ∧ (∀ h ∈ exDB9.hazards, h.ts ≤ 864000) ∧
    ((∀ (t : String) (c : Nat), (t, c) ∈ (get_hazard_trends exDB9 864000 7).1 ↔
        ((∃ h ∈ exDB9.hazards, h.hazard_type = t) ∧
         c = (exDB9.hazards.filter (fun h => h.hazard_type == t)).length)) ∧
     List.Pairwise (fun a b => a.1 < b.1) (get_hazard_trends exDB9 864000 7).2 ∧
     (∀ (d : Int) (c : Nat), (d, c) ∈ (get_hazard_trends exDB9 864000 7).2 ↔
        ((∃ h ∈ exDB9.hazards,
            (864000 - (7 : Int) * 86400 ≤ h.ts ∧ h.ts ≤ 864000) ∧ dateOf h.ts = d) ∧
         c = (exDB9.hazards.filter
               (fun h => decide (864000 - (7 : Int) * 86400 ≤ h.ts ∧ h.ts ≤ 864000) &&
                         (dateOf h.ts == d))).length))) :=
  ⟨by decide, by decide, by decide,
   C9_trends_by_type_all_time_by_day_windowed exDB9 864000 7 (by decide) (by decide) (by decide)⟩
